import Mathlib

/-!
# Verification of the tdx-vm-sdk core against its specification

Shallow embedding of the Python sources under `tools/tdx-vm-sdk/tdx/`:

* `fetch.py` — `_dirhash`, `fetch` (content-addressed cache);
* `image.py` — the `Image` builder, `Profile` overlays, `Image.resolve`,
  the entity dataclasses (`RunCommand`, `UserEntry`, `SecretEntry`, …);
* `service.py` — `Service.setup_commands`;
* `compile.py` — `_write_lifecycle_scripts`, `_write_boot_scripts`, and the
  module-level import of `RepositoryEntry` plus the `repositories` attribute
  read in `_write_repositories`.

Machine-level conventions: bytes are `Nat` values (< 256 for real inputs,
nothing below depends on the bound); the external SHA-256 primitive
(`hashlib.sha256`) is an explicit function parameter `sha256`, since every
property claimed of the code is structural in the hash function; hashing a
stream of `update` calls equals hashing the concatenation of the chunks,
which is how `hashlib` is specified.  Python `str` is modeled by `String`
(both are sequences of Unicode code points, compared by code point).
-/

namespace Tdx

/-! ## Byte and string utilities -/

/-- UTF-8 encoding of one code point (`str.encode("utf-8")`, per character). -/
def utf8Char (c : Char) : List Nat :=
  let n := c.toNat
  if n < 0x80 then [n]
  else if n < 0x800 then [0xC0 + n / 0x40, 0x80 + n % 0x40]
  else if n < 0x10000 then [0xE0 + n / 0x1000, 0x80 + (n / 0x40) % 0x40, 0x80 + n % 0x40]
  else [0xF0 + n / 0x40000, 0x80 + (n / 0x1000) % 0x40, 0x80 + (n / 0x40) % 0x40, 0x80 + n % 0x40]

/-- `s.encode("utf-8")` as a byte list. -/
def utf8Bytes (s : String) : List Nat := (s.data.map utf8Char).flatten

/-- Lower-case hex digit. -/
def hexChar (n : Nat) : Char := if n < 10 then Char.ofNat (48 + n) else Char.ofNat (87 + n)

/-- Two-digit lower-case hex rendering of one byte. -/
def hexByte (b : Nat) : String := String.mk [hexChar (b / 16), hexChar (b % 16)]

/-- The `.hexdigest()` rendering that `hashlib` applies to a digest. -/
def hexdigest (bs : List Nat) : String := String.join (bs.map hexByte)

/-- Code-point-wise lexicographic comparison of character lists.  Python
compares `str` values exactly this way, and because UTF-8 is order-preserving
it coincides with byte-wise comparison of the encodings. -/
def charsLe : List Char → List Char → Bool
  | [], _ => true
  | _ :: _, [] => false
  | a :: as, b :: bs => if a < b then true else if b < a then false else charsLe as bs

/-- The `≤` used by the Python `list.sort()` on relative path strings. -/
def pathLe (a b : String) : Bool := charsLe a.data b.data

/-- `pathLe` as a decidable relation, for the sort. -/
abbrev pathRel (a b : String) : Prop := pathLe a b = true

/-! ## `_dirhash` (fetch.py lines 43-78)

The filesystem is passed explicitly: `walk` is the list of relative paths
that `os.walk` enumerates (in whatever order), `fs` maps a relative path to
the bytes of the file.  `list.sort()` is modeled by `List.insertionSort`: on a
total, transitive, antisymmetric decidable order any correct sort computes
the same list, so the choice of algorithm is immaterial. -/

/-- Splitting a character list at a separator (Python `"a/b".split("/")`,
and the component decomposition of a relative slash-path). -/
def splitOnChar (sep : Char) : List Char → List (List Char)
  | [] => [[]]
  | c :: cs =>
      match splitOnChar sep cs, c == sep with
      | r, true => [] :: r
      | [], false => [[c]]
      | h :: t, false => (c :: h) :: t

/-- `startswith` on character lists (first argument is the pattern). -/
def listStartsWith : List Char → List Char → Bool
  | [], _ => true
  | _ :: _, [] => false
  | p :: ps, c :: cs => p == c && listStartsWith ps cs

/-- The `any(p.startswith(".git") for p in parts)` filter on path components. -/
def hasGitComponent (rel : String) : Bool :=
  (splitOnChar '/' rel.data).any (fun comp => listStartsWith ".git".data comp)

/-- The sorted file list built by `_dirhash` steps 1-2. -/
def dirhashFiles (walk : List String) : List String :=
  List.insertionSort pathRel (walk.filter (fun rel => !hasGitComponent rel))

/-- Step 3: `sha256(relative_path_utf8 || 0x00 || file_contents)`. -/
def innerDigest (sha256 : List Nat → List Nat) (fs : String → List Nat) (rel : String) :
    List Nat :=
  sha256 (utf8Bytes rel ++ [0] ++ fs rel)

/-- `_dirhash`: hex digest of the outer hash over the concatenated inner
digests (the loop of `outer.update(inner.digest())` calls hashes exactly the
concatenation of the inner digests). -/
def dirhash (sha256 : List Nat → List Nat) (fs : String → List Nat) (walk : List String) :
    String :=
  hexdigest (sha256 (((dirhashFiles walk).map (innerDigest sha256 fs)).flatten))

/-! ## `fetch` (fetch.py lines 81-133)

State is the cache directory: an association list from file name (the
expected hex digest) to the cached bytes.  The external HTTP client (`curl`)
is a function `net : url → Option bytes` (`none` = transport failure).  The
returned path `cache / sha256` is rendered as `"fetch/" ++ h`.  The
temporary download file never outlives a call, so it does not appear in the
state; `downloaded` records whether the call shelled out to the network. -/

/-- The two failure modes of `fetch`: the `ValueError` raised on a digest
mismatch (carrying url, expected and actual digests) and the `RuntimeError`
raised when the download itself fails. -/
inductive FetchError where
  | hashMismatch (url expected actual : String)
  | fetchFailed (url : String)
deriving DecidableEq, Repr

/-- The fetch cache directory (`$TDX_CACHE_DIR/fetch`). -/
structure FetchState where
  cache : List (String × List Nat)
deriving DecidableEq, Repr

instance : DecidableEq (Except FetchError String) := fun a b =>
  match a, b with
  | .ok x, .ok y => decidable_of_iff (x = y) (by simp)
  | .error x, .error y => decidable_of_iff (x = y) (by simp)
  | .ok _, .error _ => isFalse (by simp)
  | .error _, .ok _ => isFalse (by simp)

/-- Result of one `fetch` call: the post-state, whether a download happened,
and the returned path or the raised error. -/
structure FetchOutcome where
  state : FetchState
  downloaded : Bool
  result : Except FetchError String
deriving DecidableEq, Repr

/-- The path `cache / sha256` returned by `fetch`. -/
def cachePath (h : String) : String := "fetch/" ++ h

/-- `cached.unlink()`: drop the cache entry named `k`. -/
def removeEntry (cache : List (String × List Nat)) (k : String) :
    List (String × List Nat) :=
  cache.filter (fun e => e.1 != k)

/-- `_sha256_file` composed with `.hexdigest()`. -/
def sha256hex (sha256 : List Nat → List Nat) (bs : List Nat) : String :=
  hexdigest (sha256 bs)

/-- The download-verify-rename tail of `fetch` (lines 107-133); the local
`actual` is written out. -/
def downloadVerify (sha256 : List Nat → List Nat) (net : String → Option (List Nat))
    (st : FetchState) (url h : String) : FetchOutcome :=
  match net url with
  | none => ⟨st, true, .error (.fetchFailed url)⟩
  | some bytes =>
      if sha256hex sha256 bytes ≠ h then
        ⟨st, true, .error (.hashMismatch url h (sha256hex sha256 bytes))⟩
      else ⟨⟨(h, bytes) :: st.cache⟩, true, .ok (cachePath h)⟩

/-- `fetch(url, sha256)` (lines 97-133): cache probe with corruption check,
then download-verify-rename. -/
def fetch (sha256 : List Nat → List Nat) (net : String → Option (List Nat))
    (st : FetchState) (url h : String) : FetchOutcome :=
  match st.cache.lookup h with
  | some bytes =>
      if sha256hex sha256 bytes = h then ⟨st, false, .ok (cachePath h)⟩
      else downloadVerify sha256 net ⟨removeEntry st.cache h⟩ url h
  | none => downloadVerify sha256 net st url h

/-! ## Entity types (image.py, service.py)

Fields not read by any operation modeled here are omitted and noted:
`Service.extra_unit` (only `to_unit_file` reads it), `TemplateEntry.vars`
(only `_write_templates` reads it). -/

/-- `Service` (service.py lines 9-28), minus `extra_unit`. -/
structure Service where
  name : String
  exec_start : String
  after : List String := []
  requires : List String := []
  wants : List String := []
  restart : String := "on-failure"
  user : Option String := none
  group : Option String := none
  working_directory : Option String := none
deriving DecidableEq, Repr

/-- `FileEntry` (image.py lines 47-51). -/
structure FileEntry where
  dest : String
  src : Option String := none
  content : Option String := none
deriving DecidableEq, Repr

/-- `SkeletonEntry` (image.py lines 61-66). -/
structure SkeletonEntry where
  dest : String
  src : Option String := none
  content : Option String := none
deriving DecidableEq, Repr

/-- `TemplateEntry` (image.py lines 54-58), minus `vars`. -/
structure TemplateEntry where
  src : String
  dest : String
deriving DecidableEq, Repr

/-- `RunCommand` (image.py lines 69-86). -/
structure RunCommand where
  command : Option String := none
  script : Option String := none
  phase : String := "postinst"
deriving DecidableEq, Repr

/-- `UserEntry` (image.py lines 89-97). -/
structure UserEntry where
  name : String
  system : Bool := true
  home : Option String := none
  shell : String := "/usr/sbin/nologin"
  groups : List String := []
  uid : Option Int := none
deriving DecidableEq, Repr

/-- `SecretEntry` (image.py lines 121-133). -/
structure SecretEntry where
  name : String
  description : String := ""
  dest : String := ""
  owner : String := "root"
  mode : String := "0400"
deriving DecidableEq, Repr

/-- `Profile` (image.py lines 136-145).  The `overrides` dict is omitted: no
method of `Image` or `Profile` ever writes to it, so on every image built
through the API it is empty and the `setattr` loop in `resolve` is a no-op. -/
structure Profile where
  name : String
  packages : List String := []
  services : List Service := []
  files : List FileEntry := []
  run_commands : List RunCommand := []
deriving DecidableEq, Repr

/-- `Profile(name)`: fresh empty overlay. -/
def Profile.new (name : String) : Profile := { name := name }

/-! ## Image and ResolvedImage (image.py)

The scalar/config fields that `resolve` copies verbatim and that none of the
modeled operations read (`kernel`, `firmware`, `secure_boot`, `locale`,
`docs`, `cloud`, `attestation_backend`, `partitions`, `encryption`,
`network`, `ssh`, `builds`, `secret_delivery_config`) are omitted; they are
carried through `resolve` unchanged and are not consulted by
`_write_lifecycle_scripts` or `_write_boot_scripts`.  The Python `dict` of
profiles is an association list with unique keys kept in insertion order;
the `_active_profile` object reference is the key of the profile it points
at (the pointer is only ever set by `profile()`, which also stores the same
object under that key, so key and reference never diverge). -/

/-- The mutable `Image` builder state (image.py lines 148-201). -/
structure Image where
  name : String
  base : String := "debian/bookworm"
  init : String := "systemd"
  default_target : String := "minimal.target"
  packages : List String := []
  services : List Service := []
  files : List FileEntry := []
  templates : List TemplateEntry := []
  skeleton : List SkeletonEntry := []
  run_commands : List RunCommand := []
  users : List UserEntry := []
  secrets : List SecretEntry := []
  secret_delivery : String := "ssh"
  profiles : List (String × Profile) := []
  active_profile : Option String := none
deriving DecidableEq, Repr

/-- `self._profiles[name] = prof`: dict assignment (replace in place, or
append a new key at the end). -/
def setProfile : List (String × Profile) → String → Profile → List (String × Profile)
  | [], n, p => [(n, p)]
  | e :: es, n, p => if e.1 == n then (n, p) :: es else e :: setProfile es n p

/-- Mutation of the profile object stored under key `n` (what a method does
when `self._active_profile` refers to that object). -/
def updateProfile : List (String × Profile) → String → (Profile → Profile) →
    List (String × Profile)
  | [], _, _ => []
  | e :: es, n, f => if e.1 == n then (e.1, f e.2) :: es else e :: updateProfile es n f

/-- Entering `with image.profile(name)` (image.py lines 513-524): a fresh
`Profile` is created, stored under `name` (replacing any existing one), and
made active.  The source performs no check on `_active_profile`. -/
def Image.profileEnter (img : Image) (n : String) : Image :=
  { img with profiles := setProfile img.profiles n (Profile.new n),
             active_profile := some n }

/-- Scope exit (the `finally` on image.py line 527-528): clear the pointer. -/
def Image.profileExit (img : Image) : Image := { img with active_profile := none }

/-- `install(*packages)` (image.py lines 255-260): append to the active
profile if one is set, else to the base. -/
def Image.install (img : Image) (pkgs : List String) : Image :=
  match img.active_profile with
  | some n =>
      let f : Profile → Profile := fun p => { p with packages := p.packages ++ pkgs }
      { img with profiles := updateProfile img.profiles n f }
  | none => { img with packages := img.packages ++ pkgs }

/-- `service(...)` (image.py lines 345-368): append to profile or base. -/
def Image.addService (img : Image) (svc : Service) : Image :=
  match img.active_profile with
  | some n =>
      let f : Profile → Profile := fun p => { p with services := p.services ++ [svc] }
      { img with profiles := updateProfile img.profiles n f }
  | none => { img with services := img.services ++ [svc] }

/-- `user(...)` (image.py lines 264-290): always appends to the base. -/
def Image.addUser (img : Image) (u : UserEntry) : Image :=
  { img with users := img.users ++ [u] }

/-- `secret(...)` (image.py lines 294-321): always appends to the base. -/
def Image.addSecret (img : Image) (s : SecretEntry) : Image :=
  { img with secrets := img.secrets ++ [s] }

/-- `on_boot(command)` (image.py lines 494-501): appends a phase-`boot`
command to the base (not profile-aware). -/
def Image.onBoot (img : Image) (command : String) : Image :=
  { img with run_commands := img.run_commands ++ [⟨some command, none, "boot"⟩] }

/-- `_append_run` + `run(command)` (image.py lines 432-441, 503-509). -/
def Image.run (img : Image) (command : String) : Image :=
  match img.active_profile with
  | some n =>
      let f : Profile → Profile := fun p =>
        { p with run_commands := p.run_commands ++ [⟨some command, none, "postinst"⟩] }
      { img with profiles := updateProfile img.profiles n f }
  | none => { img with run_commands := img.run_commands ++ [⟨some command, none, "postinst"⟩] }

/-- `ResolvedImage` (image.py lines 575-604), restricted to the fields kept
in `Image` above. -/
structure ResolvedImage where
  name : String
  base : String
  init : String
  default_target : String
  packages : List String
  services : List Service
  files : List FileEntry
  templates : List TemplateEntry
  skeleton : List SkeletonEntry
  run_commands : List RunCommand
  users : List UserEntry
  secrets : List SecretEntry
  secret_delivery : String
deriving DecidableEq, Repr

/-- `Image.resolve(profile)` (image.py lines 532-572).  The guard is the
Python truthiness test `if profile and profile in self._profiles:` — `None`
and `""` are falsy, and an unknown name fails the membership test; in all
three cases the base-only snapshot is returned unchanged. -/
def Image.resolve (img : Image) (profile : Option String) : ResolvedImage :=
  let base : ResolvedImage :=
    { name := img.name, base := img.base, init := img.init,
      default_target := img.default_target, packages := img.packages,
      services := img.services, files := img.files, templates := img.templates,
      skeleton := img.skeleton, run_commands := img.run_commands,
      users := img.users, secrets := img.secrets,
      secret_delivery := img.secret_delivery }
  match profile with
  | none => base
  | some p =>
      if p ≠ "" then
        match img.profiles.lookup p with
        | some prof =>
            { base with
              packages := base.packages ++ prof.packages,
              services := base.services ++ prof.services,
              files := base.files ++ prof.files,
              run_commands := base.run_commands ++ prof.run_commands }
        | none => base
      else base

/-! ## Rendering helpers shared by the compiler (image.py, service.py) -/

/-- `UserEntry.to_commands` (image.py lines 99-118).  Python truthiness of
`self.home` (`None` or `""` are falsy) is modeled explicitly. -/
def UserEntry.to_commands (u : UserEntry) : List String :=
  let homeOpts : List String :=
    match u.home with
    | some h => if h ≠ "" then ["-m", "-d", h] else []
    | none => []
  let parts : List String :=
    ["useradd"]
      ++ (if u.system then ["-r"] else [])
      ++ homeOpts
      ++ ["-s", u.shell]
      ++ (match u.uid with | some uid => ["-u", toString uid] | none => [])
      ++ (if !u.groups.isEmpty then ["-G", String.intercalate "," u.groups] else [])
      ++ [u.name]
  let cmd := String.intercalate " " parts
  ["id -u " ++ u.name ++ " &>/dev/null || " ++ cmd]
    ++ (match u.home with
        | some h =>
            if h ≠ "" then
              ["mkdir -p " ++ h, "chown " ++ u.name ++ ":" ++ u.name ++ " " ++ h]
            else []
        | none => [])

/-- `Service.setup_commands` (service.py lines 96-104), with the truthiness
test `if self.user:`. -/
def Service.setup_commands (s : Service) : List String :=
  (match s.user with
   | some u =>
       if u ≠ "" then
         ["id -u " ++ u ++ " &>/dev/null || useradd -r -s /usr/sbin/nologin " ++ u]
       else []
   | none => [])
    ++ ["systemctl enable " ++ s.name ++ ".service"]

/-! ## The mkosi compiler (compile.py)

A generated file is a path plus its lines; the text written to disk is the
`"\n"`-join of the lines (for the unit files, whose source string ends in a
newline, a final `""` line carries the trailing newline). -/

/-- One file written into the output directory. -/
structure ScriptFile where
  path : String
  lines : List String
  executable : Bool
deriving DecidableEq, Repr

/-- `str(Path(p).parent)` for the slash-separated paths that occur in secret
destinations (no `.`/`..` components). -/
def pathParent (p : String) : String :=
  let isAbs := listStartsWith ['/'] p.data
  let comps := (splitOnChar '/' p.data).filter (fun c => !c.isEmpty)
  let up := comps.dropLast
  if up.isEmpty then (if isAbs then "/" else ".")
  else (if isAbs then "/" else "") ++ String.mk ((up.intersperse ['/']).flatten)

/-- Python `repr` of a string containing no quote or escape characters, as
used in `f"bash {cmd.script!r}"`. -/
def pyRepr (s : String) : String := String.mk ('\'' :: (s.data ++ ['\'']))

/-- `_MKOSI_PHASES` (compile.py line 28). -/
def mkosiPhases : List String := ["sync", "prepare", "postinst", "finalize", "postoutput", "clean"]

/-- The per-phase command filter (compile.py lines 292-294 and 344-346). -/
def phaseCommands (r : ResolvedImage) (phase : String) : List RunCommand :=
  r.run_commands.filter (fun c => c.phase == phase)

/-- The lines one `RunCommand` contributes to a script (compile.py lines
326-331 and 351-356): the command if truthy, else `bash <repr script>` if
truthy, then a blank line. -/
def RunCommand.emitLines (cmd : RunCommand) : List String :=
  let scriptLine : List String :=
    match cmd.script with
    | some s => if s ≠ "" then ["bash " ++ pyRepr s] else []
    | none => []
  (match cmd.command with
   | some c => if c ≠ "" then [c] else scriptLine
   | none => scriptLine) ++ [""]

/-- The postinst preamble (compile.py lines 305-323): user creation, service
setup, secret destination directories, default target. -/
def postinstPreamble (r : ResolvedImage) : List String :=
  (r.users.map UserEntry.to_commands).flatten
    ++ (r.services.map Service.setup_commands).flatten
    ++ (r.secrets.filterMap fun s =>
          if s.dest ≠ "" then some ("mkdir -p " ++ pathParent s.dest) else none)
    ++ ["systemctl set-default " ++ r.default_target, ""]

/-- One iteration of the `_write_lifecycle_scripts` loop (compile.py lines
291-336): `none` when the phase script is skipped.  The `_PHASE_TO_MKOSI`
lookup is `"mkosi." ++ phase` for each of the six phases. -/
def lifecycleScript (r : ResolvedImage) (phase : String) : Option ScriptFile :=
  if (phaseCommands r phase).isEmpty && !(phase == "postinst" && !r.services.isEmpty)
  then none
  else some
    { path := "mkosi." ++ phase,
      lines := ["#!/bin/bash", "set -euo pipefail", ""]
        ++ (if phase == "postinst" then postinstPreamble r else [])
        ++ ((phaseCommands r phase).map RunCommand.emitLines).flatten,
      executable := true }

/-- `_write_lifecycle_scripts` (compile.py lines 285-336). -/
def writeLifecycleScripts (r : ResolvedImage) : List ScriptFile :=
  mkosiPhases.filterMap (lifecycleScript r)

/-- The `tdx-boot-init.service` unit text (compile.py lines 371-385), line
by line. -/
def bootUnitLines : List String :=
  ["[Unit]", "Description=TDX boot-time initialization", "DefaultDependencies=no",
   "Before=sysinit.target", "ConditionPathExists=/usr/local/lib/tdx/on-boot.sh", "",
   "[Service]", "Type=oneshot", "ExecStart=/usr/local/lib/tdx/on-boot.sh",
   "RemainAfterExit=yes", "", "[Install]", "WantedBy=sysinit.target", ""]

/-- `_write_boot_scripts` (compile.py lines 338-386): nothing when no
phase-`boot` command exists, else the oneshot script and its unit. -/
def writeBootScripts (r : ResolvedImage) : List ScriptFile :=
  let bootCommands := r.run_commands.filter (fun c => c.phase == "boot")
  if bootCommands.isEmpty then []
  else
    [ { path := "mkosi.extra/usr/local/lib/tdx/on-boot.sh",
        lines := ["#!/bin/bash", "set -euo pipefail", ""]
          ++ (bootCommands.map RunCommand.emitLines).flatten,
        executable := true },
      { path := "mkosi.extra/etc/systemd/system/tdx-boot-init.service",
        lines := bootUnitLines, executable := false } ]

/-! ## Module loading (compile.py line 24, image.py module level)

`compile.py` begins with
`from tdx.image import FileEntry, RepositoryEntry, ResolvedImage, ...`.
Python resolves the listed names against the module namespace left to
right and raises `ImportError` at the first missing one, before any class
in the module — `MkosiCompiler` included — comes into existence.
`_write_repositories` (lines 175-211) additionally reads
`self.resolved.repositories`, an attribute the `ResolvedImage` dataclass
does not declare, which would raise `AttributeError` were the module ever
loaded. -/

/-- Every name bound at module level in `tdx/image.py`: its imports
(lines 5-12) and its class definitions. -/
def imageModuleDefs : List String :=
  ["contextmanager", "dataclass", "field", "Path", "Any",
   "BuildArtifact", "Kernel", "Service",
   "Partition", "EncryptionConfig", "NetworkConfig", "SSHConfig",
   "FileEntry", "TemplateEntry", "SkeletonEntry", "RunCommand",
   "UserEntry", "SecretEntry", "Profile", "Image", "ResolvedImage"]

/-- The names `compile.py` line 24 imports from `tdx.image`, in order. -/
def compileImports : List String :=
  ["FileEntry", "RepositoryEntry", "ResolvedImage", "RunCommand",
   "SecretEntry", "SkeletonEntry", "TemplateEntry", "UserEntry"]

/-- A Python exception raised while loading or running `compile.py`. -/
inductive PyError where
  | importError (module name : String)
  | attributeError (typeName attr : String)
deriving DecidableEq, Repr

/-- Loading the `tdx.compile` module: the first imported name missing from
the namespace of `tdx.image` raises `ImportError`. -/
def importCompileModule : Except PyError Unit :=
  match compileImports.find? (fun n => !imageModuleDefs.contains n) with
  | some n => Except.error (PyError.importError "tdx.image" n)
  | none => Except.ok ()

/-- The field names the `ResolvedImage` dataclass declares (image.py lines
575-604). -/
def resolvedImageFields : List String :=
  ["name", "base", "kernel", "init", "default_target", "firmware",
   "secure_boot", "locale", "docs", "cloud", "attestation_backend",
   "partitions", "encryption", "network", "ssh", "packages", "builds",
   "services", "files", "templates", "skeleton", "run_commands", "users",
   "secrets", "secret_delivery", "secret_delivery_config"]

/-- Attribute access on a `ResolvedImage` instance: `AttributeError` when
the dataclass declares no such field. -/
def getattrResolvedImage (attr : String) : Except PyError Unit :=
  if resolvedImageFields.contains attr then Except.ok ()
  else Except.error (PyError.attributeError "ResolvedImage" attr)

/-- Running `MkosiCompiler(resolved, out).compile()` as Python executes it:
the module import comes first (and is where every run in fact stops); were
it to succeed, `_write_repositories` would read the `repositories`
attribute; the writers modeled in this file contribute the success value. -/
def compileRun (r : ResolvedImage) : Except PyError (List ScriptFile) := do
  importCompileModule
  getattrResolvedImage "repositories"
  pure (writeLifecycleScripts r ++ writeBootScripts r)

/-! ## Concrete instances used by counterexamples and witnesses -/

/-- A base image with one package and no profiles (the S2 base). -/
def imgBase : Image := { name := "img", packages := ["ca-certificates"] }

/-- `imgBase` after `with profile("dev"): install("strace", "gdb")`. -/
def imgWithDev : Image :=
  (((imgBase.profileEnter "dev").install ["strace", "gdb"]).profileExit)

/-- `imgBase` after two successive `profile("dev")` scopes installing
`a` then `b`. -/
def imgDevTwice : Image :=
  (((((imgBase.profileEnter "dev").install ["a"]).profileExit).profileEnter
      "dev").install ["b"]).profileExit

/-- A resolved image that declares one user and nothing else. -/
def rUserOnly : ResolvedImage :=
  { name := "img", base := "debian/bookworm", init := "systemd",
    default_target := "minimal.target", packages := [], services := [],
    files := [], templates := [], skeleton := [],
    run_commands := [], users := [{ name := "svc" }], secrets := [],
    secret_delivery := "ssh" }

/-- A resolved image that declares one secret and nothing else. -/
def rSecretOnly : ResolvedImage :=
  { name := "img", base := "debian/bookworm", init := "systemd",
    default_target := "minimal.target", packages := [], services := [],
    files := [], templates := [], skeleton := [],
    run_commands := [], users := [],
    secrets := [{ name := "API_KEY", dest := "/etc/api/key" }],
    secret_delivery := "ssh" }

/-- A resolved image whose single run-command is `on_boot("echo boot")`. -/
def rBootOnly : ResolvedImage :=
  { name := "img", base := "debian/bookworm", init := "systemd",
    default_target := "minimal.target", packages := [], services := [],
    files := [], templates := [], skeleton := [],
    run_commands := [⟨some "echo boot", none, "boot"⟩], users := [],
    secrets := [], secret_delivery := "ssh" }

/-- A resolved image whose single run-command targets phase `build`. -/
def rBuildOnly : ResolvedImage :=
  { name := "img", base := "debian/bookworm", init := "systemd",
    default_target := "minimal.target", packages := [], services := [],
    files := [], templates := [], skeleton := [],
    run_commands := [⟨some "echo BUILDSTEP", none, "build"⟩], users := [],
    secrets := [], secret_delivery := "ssh" }

/-- A two-file directory: `a/x` holds `hello\n`, `b/y` holds `world\n`. -/
def exampleFs : String → List Nat := fun rel =>
  if rel = "a/x" then utf8Bytes "hello\n"
  else if rel = "b/y" then utf8Bytes "world\n"
  else []

/-! ## Order lemmas for the path comparison -/

theorem charsLe_cons (a b : Char) (as bs : List Char) :
    charsLe (a :: as) (b :: bs) = true ↔ a < b ∨ (a = b ∧ charsLe as bs = true) := by
  by_cases h1 : a < b
  · simp [charsLe, h1]
  · by_cases h2 : b < a
    · have hne : a ≠ b := ne_of_gt h2
      simp [charsLe, h1, h2, hne]
    · have heq : a = b := le_antisymm (not_lt.mp h2) (not_lt.mp h1)
      simp [charsLe, h1, h2, heq]

theorem charsLe_total : ∀ as bs : List Char, charsLe as bs = true ∨ charsLe bs as = true := by
  intro as
  induction as with
  | nil => intro bs; left; rfl
  | cons a as ih =>
    intro bs
    cases bs with
    | nil => right; rfl
    | cons b bs =>
      rcases lt_trichotomy a b with h | h | h
      · exact Or.inl ((charsLe_cons ..).mpr (Or.inl h))
      · rcases ih bs with h2 | h2
        · exact Or.inl ((charsLe_cons ..).mpr (Or.inr ⟨h, h2⟩))
        · exact Or.inr ((charsLe_cons ..).mpr (Or.inr ⟨h.symm, h2⟩))
      · exact Or.inr ((charsLe_cons ..).mpr (Or.inl h))

theorem charsLe_trans : ∀ as bs cs : List Char,
    charsLe as bs = true → charsLe bs cs = true → charsLe as cs = true := by
  intro as
  induction as with
  | nil => intro bs cs _ _; rfl
  | cons a as ih =>
    intro bs cs hab hbc
    cases bs with
    | nil => simp [charsLe] at hab
    | cons b bs =>
      cases cs with
      | nil => simp [charsLe] at hbc
      | cons c cs =>
        rcases (charsLe_cons ..).mp hab with h1 | h1 <;>
          rcases (charsLe_cons ..).mp hbc with h2 | h2
        · exact (charsLe_cons ..).mpr (Or.inl (lt_trans h1 h2))
        · refine (charsLe_cons ..).mpr (Or.inl ?_); rw [← h2.1]; exact h1
        · refine (charsLe_cons ..).mpr (Or.inl ?_); rw [h1.1]; exact h2
        · exact (charsLe_cons ..).mpr (Or.inr ⟨h1.1.trans h2.1, ih bs cs h1.2 h2.2⟩)

theorem charsLe_antisymm : ∀ as bs : List Char,
    charsLe as bs = true → charsLe bs as = true → as = bs := by
  intro as
  induction as with
  | nil =>
    intro bs h1 h2
    cases bs with
    | nil => rfl
    | cons b bs => simp [charsLe] at h2
  | cons a as ih =>
    intro bs h1 h2
    cases bs with
    | nil => simp [charsLe] at h1
    | cons b bs =>
      rcases (charsLe_cons ..).mp h1 with h | h
      · rcases (charsLe_cons ..).mp h2 with h' | h'
        · exact absurd h' (asymm h)
        · exact absurd h'.1 (ne_of_gt h)
      · rcases (charsLe_cons ..).mp h2 with h' | h'
        · exact absurd h' (by rw [h.1]; exact lt_irrefl b)
        · rw [h.1, ih bs h.2 h'.2]

theorem pathRel_total (a b : String) : pathRel a b ∨ pathRel b a :=
  charsLe_total a.data b.data

theorem pathRel_trans {a b c : String} : pathRel a b → pathRel b c → pathRel a c :=
  charsLe_trans a.data b.data c.data

theorem pathRel_antisymm {a b : String} : pathRel a b → pathRel b a → a = b := by
  intro h1 h2
  cases a; cases b
  exact congrArg String.mk (charsLe_antisymm _ _ h1 h2)

/-- The sorted file list depends only on the set of walked paths, not on the
enumeration order. -/
theorem dirhashFiles_perm {walk walk' : List String} (h : walk.Perm walk') :
    dirhashFiles walk = dirhashFiles walk' := by
  haveI : IsTotal String pathRel := ⟨pathRel_total⟩
  haveI : IsTrans String pathRel := ⟨fun _ _ _ => pathRel_trans⟩
  haveI : IsAntisymm String pathRel := ⟨fun _ _ => pathRel_antisymm⟩
  exact List.eq_of_perm_of_sorted (r := pathRel)
    ((List.perm_insertionSort ..).trans ((h.filter _).trans
      (List.perm_insertionSort ..).symm))
    (List.sorted_insertionSort ..) (List.sorted_insertionSort ..)

/-- C8: for every directory, `dirhash` is the SHA-256 of the concatenation,
in sorted order of the relative paths (paths with a `.git`-component
excluded), of the inner digests `sha256(path || 0x00 || contents)`; on the
two-file directory `a/x = hello\n`, `b/y = world\n` it equals
`sha256(sha256("a/x"||00||"hello\n") || sha256("b/y"||00||"world\n"))`, and
permuting the filesystem walk leaves the result unchanged. -/
theorem dirhash_spec (sha256 : List Nat → List Nat) (fs : String → List Nat)
    (walk walk' : List String) (hperm : walk.Perm walk') :
    dirhash sha256 fs walk = dirhash sha256 fs walk'
      ∧ dirhash sha256 exampleFs ["a/x", "b/y"] =
          hexdigest (sha256 (sha256 (utf8Bytes "a/x" ++ [0] ++ utf8Bytes "hello\n")
            ++ sha256 (utf8Bytes "b/y" ++ [0] ++ utf8Bytes "world\n"))) := by
  constructor
  · unfold dirhash
    rw [dirhashFiles_perm hperm]
  · have hfiles : dirhashFiles ["a/x", "b/y"] = ["a/x", "b/y"] := by decide
    unfold dirhash
    rw [hfiles]
    simp [innerDigest, exampleFs]

/-- Witness for C8: the walk orders `[b/y, a/x]` and `[a/x, b/y]` are
permutations of each other and hash identically. -/
theorem dirhash_spec_witness :
    (["b/y", "a/x"] : List String).Perm ["a/x", "b/y"]
      ∧ dirhash (fun bs => bs) exampleFs ["b/y", "a/x"]
          = dirhash (fun bs => bs) exampleFs ["a/x", "b/y"] := by
  refine ⟨by decide, ?_⟩
  exact (dirhash_spec (fun bs => bs) exampleFs ["b/y", "a/x"] ["a/x", "b/y"] (by decide)).1

/-! ## Fetch cache lemmas -/

theorem lookup_removeEntry (cache : List (String × List Nat)) (k : String) :
    (removeEntry cache k).lookup k = none := by
  induction cache with
  | nil => rfl
  | cons e es ih =>
    obtain ⟨k1, v1⟩ := e
    by_cases hk : k1 = k
    · simpa [removeEntry, List.filter_cons, hk] using ih
    · have hbk : (k == k1) = false := beq_eq_false_iff_ne.mpr (Ne.symm hk)
      have hbne : (k1 != k) = true := bne_iff_ne.mpr hk
      simpa [removeEntry, List.filter_cons, hbne, List.lookup, hbk] using ih

/-- C7: a successful `fetch(url, h)` returns the cache path for `h` and
leaves a cache entry whose SHA-256 hex digest is `h`, and repeating the call
returns the same path with no download; when the downloaded bytes hash to
`actual ≠ h` (and no valid cache entry pre-exists), the call fails with
`HashMismatch` carrying the url, the expected and the actual digests, and no
cache entry for `h` survives. -/
theorem fetch_spec (sha256 : List Nat → List Nat) (net : String → Option (List Nat))
    (st : FetchState) (url h : String) :
    (∀ st' dl p, fetch sha256 net st url h = ⟨st', dl, .ok p⟩ →
        p = cachePath h
          ∧ (∃ bytes, st'.cache.lookup h = some bytes ∧ sha256hex sha256 bytes = h)
          ∧ fetch sha256 net st' url h = ⟨st', false, .ok p⟩)
      ∧ (∀ bytes, net url = some bytes → sha256hex sha256 bytes ≠ h →
          (∀ cb, st.cache.lookup h = some cb → sha256hex sha256 cb ≠ h) →
          (fetch sha256 net st url h).result
              = .error (.hashMismatch url h (sha256hex sha256 bytes))
            ∧ (fetch sha256 net st url h).state.cache.lookup h = none
            ∧ (fetch sha256 net st url h).downloaded = true) := by
  have hdv : ∀ s : FetchState, ∀ st' dl p,
      downloadVerify sha256 net s url h = ⟨st', dl, .ok p⟩ →
      p = cachePath h ∧ ∃ bytes, st'.cache = (h, bytes) :: s.cache
        ∧ sha256hex sha256 bytes = h := by
    intro s st' dl p hres
    unfold downloadVerify at hres
    split at hres
    · simp at hres
    · rename_i bytes _
      split at hres
      · simp at hres
      · rename_i hh
        push_neg at hh
        simp only [FetchOutcome.mk.injEq, Except.ok.injEq] at hres
        obtain ⟨hst, _, hp⟩ := hres
        exact ⟨hp.symm, bytes, hst.symm ▸ rfl, hh⟩
  constructor
  · intro st' dl p hres
    unfold fetch at hres
    split at hres
    · rename_i cb hc
      split at hres
      · rename_i hh
        simp only [FetchOutcome.mk.injEq, Except.ok.injEq] at hres
        obtain ⟨hst, hdl, hp⟩ := hres
        subst hst
        refine ⟨hp.symm, ⟨cb, hc, hh⟩, ?_⟩
        unfold fetch
        rw [hc]
        simp [hh, hp]
      · rename_i hh
        obtain ⟨hp, bytes, hcache, hhash⟩ := hdv ⟨removeEntry st.cache h⟩ st' dl p hres
        refine ⟨hp, ⟨bytes, ?_, hhash⟩, ?_⟩
        · simp [hcache, List.lookup]
        · unfold fetch
          rw [hcache]
          simp [List.lookup, hhash, hp]
    · rename_i hc
      obtain ⟨hp, bytes, hcache, hhash⟩ := hdv st st' dl p hres
      refine ⟨hp, ⟨bytes, ?_, hhash⟩, ?_⟩
      · simp [hcache, List.lookup]
      · unfold fetch
        rw [hcache]
        simp [List.lookup, hhash, hp]
  · intro bytes hn hbad hcache
    rcases hc : st.cache.lookup h with _ | cb
    · have hfe : fetch sha256 net st url h
          = ⟨st, true, .error (.hashMismatch url h (sha256hex sha256 bytes))⟩ := by
        unfold fetch downloadVerify
        rw [hc, hn]
        simp [hbad]
      rw [hfe]
      exact ⟨rfl, hc, rfl⟩
    · have hcb : sha256hex sha256 cb ≠ h := hcache cb hc
      have hfe : fetch sha256 net st url h
          = ⟨⟨removeEntry st.cache h⟩, true,
              .error (.hashMismatch url h (sha256hex sha256 bytes))⟩ := by
        unfold fetch downloadVerify
        rw [hc, hn]
        simp [hbad, hcb]
      rw [hfe]
      exact ⟨rfl, lookup_removeEntry st.cache h, rfl⟩

/-- Witness for C7 with the identity as hash primitive: downloading `[1, 2]`
against expected digest `"0102"` succeeds and re-fetching hits the cache;
against expected digest `"00"` it fails with `HashMismatch "u" "00" "0102"`
and leaves no cache entry. -/
theorem fetch_spec_witness :
    ("fetch/0102" = cachePath "0102"
        ∧ (∃ bytes,
            (FetchState.mk [("0102", [1, 2])]).cache.lookup "0102" = some bytes
              ∧ sha256hex (fun bs => bs) bytes = "0102")
        ∧ fetch (fun bs => bs) (fun _ => some [1, 2]) ⟨[("0102", [1, 2])]⟩ "u" "0102"
            = ⟨⟨[("0102", [1, 2])]⟩, false, .ok "fetch/0102"⟩)
      ∧ ((fetch (fun bs => bs) (fun _ => some [1, 2]) ⟨[]⟩ "u" "00").result
            = .error (.hashMismatch "u" "00" "0102")
          ∧ (fetch (fun bs => bs) (fun _ => some [1, 2])
              ⟨[]⟩ "u" "00").state.cache.lookup "00" = none
          ∧ (fetch (fun bs => bs) (fun _ => some [1, 2]) ⟨[]⟩ "u" "00").downloaded
              = true) := by
  constructor
  · exact (fetch_spec (fun bs => bs) (fun _ => some [1, 2]) ⟨[]⟩ "u" "0102").1
      ⟨[("0102", [1, 2])]⟩ true "fetch/0102" (by decide)
  · exact (fetch_spec (fun bs => bs) (fun _ => some [1, 2]) ⟨[]⟩ "u" "00").2
      [1, 2] rfl (by decide) (fun cb hcb => by simp [List.lookup] at hcb)

/-! ## Profile map lemmas -/

theorem lookup_setProfile (ps : List (String × Profile)) (n : String) (p : Profile) :
    (setProfile ps n p).lookup n = some p := by
  induction ps with
  | nil => simp [setProfile, List.lookup]
  | cons e es ih =>
    by_cases hk : e.1 = n
    · simp [setProfile, hk, List.lookup]
    · have hbk : (e.1 == n) = false := beq_eq_false_iff_ne.mpr hk
      have hnk : (n == e.1) = false := beq_eq_false_iff_ne.mpr (Ne.symm hk)
      simpa [setProfile, hbk, List.lookup, hnk] using ih

theorem lookup_updateProfile (ps : List (String × Profile)) (n : String)
    (f : Profile → Profile) :
    (updateProfile ps n f).lookup n = (ps.lookup n).map f := by
  induction ps with
  | nil => rfl
  | cons e es ih =>
    by_cases hk : e.1 = n
    · have hnk : (n == e.1) = true := beq_iff_eq.mpr hk.symm
      simp [updateProfile, hk, List.lookup, hnk]
    · have hbk : (e.1 == n) = false := beq_eq_false_iff_ne.mpr hk
      have hnk : (n == e.1) = false := beq_eq_false_iff_ne.mpr (Ne.symm hk)
      simpa [updateProfile, hbk, List.lookup, hnk] using ih

/-! ## C2 — resolve with an unknown profile name -/

/-- C2 counterexample: `imgBase` has no profiles at all, yet
`resolve("dev")` returns the base-only resolution instead of failing — the
source has no `UnknownProfile` error and `resolve` is total. -/
theorem resolve_unknown_profile_counterexample :
    imgBase.profiles = []
      ∧ imgBase.resolve (some "dev") = imgBase.resolve none
      ∧ (imgBase.resolve (some "dev")).packages = ["ca-certificates"] := by
  decide

/-- C2 amended: for every `Image` and every profile name `p` not present in
its profiles map, `resolve(p)` silently returns the base-only resolution
(the guard `if profile and profile in self._profiles` fails and no error is
raised). -/
theorem resolve_unknown_profile (img : Image) (p : String)
    (h : img.profiles.lookup p = none) :
    img.resolve (some p) = img.resolve none := by
  by_cases hp : p = "" <;> simp [Image.resolve, h, hp]

/-- Witness for the amended C2 at `imgBase` and the undefined name `dev`. -/
theorem resolve_unknown_profile_witness :
    imgBase.profiles.lookup "dev" = none
      ∧ imgBase.resolve (some "dev") = imgBase.resolve none :=
  ⟨by decide, resolve_unknown_profile imgBase "dev" (by decide)⟩

/-! ## C3 — entering a profile while one is active -/

/-- C3 counterexample: entering `profile("b")` while the `"a"` scope is
still active raises nothing — `profile` performs no check on
`_active_profile`; the second profile is registered and becomes active. -/
theorem profile_reentry_counterexample :
    ((imgBase.profileEnter "a").active_profile = some "a")
      ∧ ((imgBase.profileEnter "a").profileEnter "b").active_profile = some "b"
      ∧ (((imgBase.profileEnter "a").profileEnter "b").profiles.map Prod.fst)
          = ["a", "b"] := by
  decide

/-- C3 amended: entering a profile scope while another is active is not an
error; the new profile is stored (fresh) and the active pointer is simply
replaced by it. -/
theorem profile_reentry (img : Image) (n : String)
    (_hactive : img.active_profile.isSome) :
    (img.profileEnter n).active_profile = some n
      ∧ (img.profileEnter n).profiles.lookup n = some (Profile.new n) :=
  ⟨rfl, lookup_setProfile img.profiles n (Profile.new n)⟩

/-- Witness for the amended C3: re-entry on an image whose `"a"` scope is
still active. -/
theorem profile_reentry_witness :
    (imgBase.profileEnter "a").active_profile.isSome
      ∧ ((imgBase.profileEnter "a").profileEnter "b").active_profile = some "b"
      ∧ ((imgBase.profileEnter "a").profileEnter "b").profiles.lookup "b"
          = some (Profile.new "b") :=
  ⟨by decide, profile_reentry (imgBase.profileEnter "a") "b" (by decide)⟩

/-! ## C4 — a profile name used in two scopes -/

/-- C4 counterexample: two `profile("dev")` scopes installing `a` then `b`:
the resolved packages are the base plus `b` only — the entries of the first scope
are discarded, not accumulated. -/
theorem profile_accumulation_counterexample :
    (imgDevTwice.resolve (some "dev")).packages = ["ca-certificates", "b"]
      ∧ (imgDevTwice.resolve (some "dev")).packages
          ≠ ["ca-certificates", "a", "b"] := by
  decide

/-- C4 amended: re-entering `profile(n)` stores a fresh `Profile` under `n`
(discarding the previous one), so after two scopes installing `pkgs₁` then
`pkgs₂`, `resolve(n).packages` is the base followed by `pkgs₂` alone. -/
theorem profile_reentry_resets (img : Image) (n : String)
    (pkgs₁ pkgs₂ : List String) (hn : n ≠ "") :
    ((((((img.profileEnter n).install pkgs₁).profileExit).profileEnter n).install
        pkgs₂).profileExit.resolve (some n)).packages
      = img.packages ++ pkgs₂ := by
  simp [Image.resolve, hn, Image.profileEnter, Image.install, Image.profileExit,
    lookup_updateProfile, lookup_setProfile, Profile.new]

/-- Witness for the amended C4: `imgDevTwice` resolves to the base packages
plus the install of the second scope only. -/
theorem profile_reentry_resets_witness :
    ("dev" : String) ≠ ""
      ∧ (imgDevTwice.resolve (some "dev")).packages = imgBase.packages ++ ["b"] :=
  ⟨by decide, profile_reentry_resets imgBase "dev" ["a"] ["b"] (by decide)⟩

/-! ## C6 — profile monotonicity of resolve -/

/-- C6: for every defined profile `p`, the base package list is an initial
segment of `resolve(p).packages` and its length cannot shrink; for every
non-empty profile name the resolved list is exactly the base followed by the
profile entries in insertion order. -/
theorem resolve_profile_monotone (img : Image) (p : String) (prof : Profile)
    (h : img.profiles.lookup p = some prof) :
    (∃ t, (img.resolve (some p)).packages = (img.resolve none).packages ++ t)
      ∧ (img.resolve none).packages.length ≤ (img.resolve (some p)).packages.length
      ∧ (p ≠ "" → (img.resolve (some p)).packages
            = (img.resolve none).packages ++ prof.packages) := by
  by_cases hp : p = ""
  · refine ⟨⟨[], by simp [Image.resolve, hp]⟩, ?_, fun hne => absurd hp hne⟩
    simp [Image.resolve, hp]
  · refine ⟨⟨prof.packages, ?_⟩, ?_, fun _ => ?_⟩
    · simp [Image.resolve, h, hp]
    · simp [Image.resolve, h, hp]
    · simp [Image.resolve, h, hp]

/-- Witness for C6 at `imgWithDev`, whose `dev` profile installs two extra
packages on top of one base package. -/
theorem resolve_profile_monotone_witness :
    imgWithDev.profiles.lookup "dev" = some { name := "dev", packages := ["strace", "gdb"] }
      ∧ ((∃ t, (imgWithDev.resolve (some "dev")).packages
              = (imgWithDev.resolve none).packages ++ t)
          ∧ (imgWithDev.resolve none).packages.length
              ≤ (imgWithDev.resolve (some "dev")).packages.length
          ∧ (("dev" : String) ≠ "" → (imgWithDev.resolve (some "dev")).packages
                = (imgWithDev.resolve none).packages
                    ++ (Profile.mk "dev" ["strace", "gdb"] [] [] []).packages)) :=
  ⟨by decide, resolve_profile_monotone imgWithDev "dev"
    (Profile.mk "dev" ["strace", "gdb"] [] [] []) (by decide)⟩

/-! ## Compiler lemmas -/

/-- Every emitted lifecycle script is named `mkosi.<phase>`. -/
theorem lifecycleScript_path {r : ResolvedImage} {ph : String} {f : ScriptFile}
    (h : lifecycleScript r ph = some f) : f.path = "mkosi." ++ ph := by
  unfold lifecycleScript at h
  split at h
  · exact absurd h (by simp)
  · injection h with h
    subst h
    rfl
/-- The skip condition of the postinst script, as the source computes it. -/
theorem lifecycleScript_postinst_none (r : ResolvedImage) :
    lifecycleScript r "postinst" = none
      ↔ (phaseCommands r "postinst" = [] ∧ r.services = []) := by
  unfold lifecycleScript
  rcases hcmd : phaseCommands r "postinst" with _ | ⟨c, cs⟩ <;>
    rcases hsvc : r.services with _ | ⟨s, ss⟩ <;> simp [hcmd, hsvc]

/-! ## C1 — compile cannot run -/

/-- C1: for every `ResolvedImage`, running the compiler fails: loading
`tdx.compile` raises `ImportError` because `RepositoryEntry` is not defined
in `tdx.image`, and independently the `repositories` attribute that
`_write_repositories` reads is not a field of the `ResolvedImage`
dataclass; no run produces the output tree. -/
theorem compileRun_always_fails (r : ResolvedImage) :
    compileRun r = Except.error (PyError.importError "tdx.image" "RepositoryEntry")
      ∧ getattrResolvedImage "repositories"
          = Except.error (PyError.attributeError "ResolvedImage" "repositories") :=
  ⟨rfl, rfl⟩

/-! ## C5 — what triggers the postinst script -/

/-- C5 counterexample: a resolved image with one user (and one with one
secret), no services and no postinst run-commands produces no
`mkosi.postinst` at all — the source gates the postinst script only on
phase-matched commands and services. -/
theorem postinst_user_only_counterexample :
    writeLifecycleScripts rUserOnly = [] ∧ rUserOnly.users ≠ []
      ∧ writeLifecycleScripts rSecretOnly = [] ∧ rSecretOnly.secrets ≠ [] := by
  decide

/-- C5 amended: the compiler writes `mkosi.postinst` exactly when some
run-command targets the postinst phase or at least one service is declared;
users and secrets alone do not trigger it (their setup commands are only
emitted when the script is written for one of those two reasons). -/
theorem postinst_written_iff (r : ResolvedImage) :
    "mkosi.postinst" ∈ (writeLifecycleScripts r).map ScriptFile.path
      ↔ (phaseCommands r "postinst" ≠ [] ∨ r.services ≠ []) := by
  constructor
  · intro hmem
    rcases List.mem_map.mp hmem with ⟨f, hf, hpath⟩
    rcases List.mem_filterMap.mp hf with ⟨ph, hph, hsome⟩
    have hpp : "mkosi." ++ ph = "mkosi.postinst" := by
      rw [← lifecycleScript_path hsome, hpath]
    have hph2 : ph = "postinst" := by
      simp [mkosiPhases] at hph
      rcases hph with rfl | rfl | rfl | rfl | rfl | rfl <;>
        first | rfl | (exfalso; revert hpp; decide)
    subst hph2
    have hne : lifecycleScript r "postinst" ≠ none := by simp [hsome]
    rw [Ne, lifecycleScript_postinst_none] at hne
    tauto
  · intro hcond
    have hne : lifecycleScript r "postinst" ≠ none := by
      rw [Ne, lifecycleScript_postinst_none]
      tauto
    rcases ho : lifecycleScript r "postinst" with _ | f
    · exact absurd ho hne
    · refine List.mem_map.mpr ⟨f, List.mem_filterMap.mpr ⟨"postinst", by decide, ho⟩, ?_⟩
      rw [lifecycleScript_path ho]
      decide

/-- Witness for the amended C5: one postinst run-command makes the script
appear. -/
theorem postinst_written_iff_witness :
    "mkosi.postinst" ∈ (writeLifecycleScripts
        { rUserOnly with run_commands := [⟨some "echo hi", none, "postinst"⟩] }).map
        ScriptFile.path
      ↔ (phaseCommands
            { rUserOnly with run_commands := [⟨some "echo hi", none, "postinst"⟩] }
            "postinst" ≠ []
          ∨ ({ rUserOnly with
                run_commands := [⟨some "echo hi", none, "postinst"⟩] } : ResolvedImage).services
              ≠ []) :=
  postinst_written_iff { rUserOnly with run_commands := [⟨some "echo hi", none, "postinst"⟩] }

/-! ## C9 — boot phase materialization -/

/-- C9: compiling a resolved image whose only run-command is
`on_boot("echo boot")` yields `mkosi.extra/usr/local/lib/tdx/on-boot.sh`
containing the command and the `tdx-boot-init.service` unit with the lines
`Before=sysinit.target` and `WantedBy=sysinit.target`, while no
`mkosi.<phase>` lifecycle script is written at all — the boot command
appears in none of them. -/
theorem boot_materialization :
    (writeBootScripts rBootOnly).map ScriptFile.path
        = ["mkosi.extra/usr/local/lib/tdx/on-boot.sh",
           "mkosi.extra/etc/systemd/system/tdx-boot-init.service"]
      ∧ (∃ f ∈ writeBootScripts rBootOnly,
          f.path = "mkosi.extra/usr/local/lib/tdx/on-boot.sh" ∧ "echo boot" ∈ f.lines)
      ∧ (∃ f ∈ writeBootScripts rBootOnly,
          f.path = "mkosi.extra/etc/systemd/system/tdx-boot-init.service"
            ∧ "Before=sysinit.target" ∈ f.lines ∧ "WantedBy=sysinit.target" ∈ f.lines)
      ∧ writeLifecycleScripts rBootOnly = [] := by
  decide

/-! ## C10 — phase `build` commands are silently dropped -/

theorem filter_phase_of_drop_build (l : List RunCommand) (ph : String)
    (hph : ph ≠ "build") :
    (l.filter (fun c => c.phase != "build")).filter (fun c => c.phase == ph)
      = l.filter (fun c => c.phase == ph) := by
  rw [List.filter_filter]
  apply List.filter_congr
  intro c _
  by_cases hc : c.phase = "build"
  · have h1 : (c.phase == ph) = false := by
      rw [hc]
      exact beq_eq_false_iff_ne.mpr (Ne.symm hph)
    simp [h1]
  · have h2 : (c.phase != "build") = true := bne_iff_ne.mpr hc
    simp [h2]

theorem phaseCommands_drop_build (r : ResolvedImage) (ph : String)
    (hph : ph ≠ "build") :
    phaseCommands
        { r with run_commands := r.run_commands.filter (fun c => c.phase != "build") } ph
      = phaseCommands r ph := by
  simp only [phaseCommands]
  exact filter_phase_of_drop_build r.run_commands ph hph

theorem lifecycleScript_drop_build (r : ResolvedImage) (ph : String)
    (hph : ph ≠ "build") :
    lifecycleScript
        { r with run_commands := r.run_commands.filter (fun c => c.phase != "build") } ph
      = lifecycleScript r ph := by
  unfold lifecycleScript
  rw [phaseCommands_drop_build r ph hph]
  rfl

/-- C10: the lifecycle writer handles only the six mkosi phases and the boot
writer only phase `boot`, so commands with phase `build` contribute to
neither: deleting them from a resolved image changes nothing, and an image
whose only run-command has phase `build` produces no script (the writers are
total functions — nothing is raised either). -/
theorem build_phase_dropped (r : ResolvedImage) :
    writeLifecycleScripts
        { r with run_commands := r.run_commands.filter (fun c => c.phase != "build") }
      = writeLifecycleScripts r
    ∧ writeBootScripts
        { r with run_commands := r.run_commands.filter (fun c => c.phase != "build") }
      = writeBootScripts r
    ∧ writeLifecycleScripts rBuildOnly = [] ∧ writeBootScripts rBuildOnly = [] := by
  refine ⟨?_, ?_, by decide, by decide⟩
  · have hgen : ∀ phs : List String, "build" ∉ phs →
        phs.filterMap (lifecycleScript
          { r with run_commands := r.run_commands.filter (fun c => c.phase != "build") })
          = phs.filterMap (lifecycleScript r) := by
      intro phs
      induction phs with
      | nil => intro _; rfl
      | cons ph t ih =>
        intro hmem
        rw [List.mem_cons, not_or] at hmem
        rw [List.filterMap_cons, List.filterMap_cons,
          lifecycleScript_drop_build r ph (Ne.symm hmem.1), ih hmem.2]
    exact hgen mkosiPhases (by decide)
  · unfold writeBootScripts
    rw [show ({ r with run_commands :=
          r.run_commands.filter (fun c => c.phase != "build") } : ResolvedImage).run_commands
        = r.run_commands.filter (fun c => c.phase != "build") from rfl,
      filter_phase_of_drop_build r.run_commands "boot" (by decide)]

end Tdx
